import Mathlib

/-!
Shallow embedding of the TekanaAI Kinyarwanda TTS repository.

The repository consists of:
  * `src/inference/tts_engine.py` — the Plumber inference engine
    (namespace `Inference` below);
  * `src/shiny_app/www/scripts/tts_engine.py` — the Shiny inference engine
    (namespace `Shiny` below);
  * `src/scripts/data_pipeline/decode_parquet_to_wav.py` — the parquet
    decoder (namespace `DecodeParquet` below);
  * `src/scripts/training/train_mms_tts.py` — the fine-tuning loop
    (namespace `Train` below).

Audio samples are modelled as rational numbers (the Python code works on
float32/float64 arrays; float rounding is abstracted away).  Calls into
external libraries (transformers, scipy, soundfile) are modelled as
parameters of the embedding: the repository's own logic — control flow,
environment-variable handling, clipping, peak normalization, fallback and
skip paths, metadata construction — is translated statement by statement.
-/

namespace TekanaAI

/-- A mono audio signal: the 1-D float array the Python code passes around. -/
abbrev Signal := List ℚ

/-- One application of numpy clip to [-1, 1]: np.clip(x, -1.0, 1.0). -/
def clip1 (x : ℚ) : ℚ := max (-1) (min 1 x)

/-- np.clip(audio, -1.0, 1.0) over the whole array. -/
def clipSignal (a : Signal) : Signal := a.map clip1

/-- np.abs(audio).max(): the peak magnitude of the signal.  (numpy raises on
an empty array; the engines only reach this point with the signal the model
or the two-second fallback produced, so we totalise with 0 on []). -/
def peak (a : Signal) : ℚ := (a.map (fun x => |x|)).foldr max 0

/-- The external scipy.signal operations the engines call.  butter/filtfilt
and resample_poly are library code, not code of this repository, so they
enter the embedding as parameters; theorems that need a fact about them
(e.g. that a linear filter maps the zero signal to the zero signal) take it
as an explicit hypothesis. -/
structure DSP where
  bandpass : ℕ → Signal → Signal
  removeDC : ℕ → Signal → Signal
  resamplePoly : ℕ → ℕ → Signal → Signal

/-- The payload handed to sf.write(buf, audio, sampling_rate, "WAV", "PCM_16"):
the sample rate recorded in the WAV header and the waveform samples. -/
structure Wav where
  rate : ℕ
  samples : Signal
deriving DecidableEq

/-- Peak normalization step of both engines:
  peak = np.abs(audio).max(); if peak > 1e-6: audio = (audio / peak) * 0.95. -/
def normalizePeak (audio : Signal) : Signal :=
  if 1 / 1000000 < peak audio then
    audio.map (fun x => x / peak audio * (95 / 100))
  else
    audio

/-- A model config as seen through getattr: the optional sampling_rate and
sample_rate attributes. -/
structure ModelConfig where
  samplingRate : Option ℕ
  sampleRate : Option ℕ

/-- getattr(config, "sampling_rate", getattr(config, "sample_rate", 16000)),
the value both engines cache as _model._sampling_rate at load time. -/
def cachedSamplingRate (c : ModelConfig) : ℕ :=
  c.samplingRate.getD (c.sampleRate.getD 16000)

/-- The unpacked output of one pipeline call: the dict's "audio"/"output"
entry and its "sampling_rate"/"sample_rate" entry, each possibly absent. -/
structure PipelineOutput where
  audio : Option Signal
  samplingRate : Option ℕ

/-- The speaker_id argument of synthesize: None, an int, or a string. -/
inductive SpeakerArg
  | noneArg
  | intArg (n : ℤ)
  | strArg (s : String)

/-- The coercion at the top of both synthesize functions:
int(speaker_id) with TypeError/ValueError mapped to None. -/
def coerceSpeakerId (a : SpeakerArg) : Option ℤ :=
  match a with
  | .noneArg => none
  | .intArg n => some n
  | .strArg s => s.toInt?

/-- str.lower(), modelled character by character over the string's data
(the environment values compared here are ASCII). -/
def lowerStr (s : String) : String := String.mk (s.data.map Char.toLower)

/-- os.environ.get("TTS_USE_PRETRAINED", "").lower() in ("1", "true", "yes"). -/
def usePretrainedFlag (v : Option String) : Bool :=
  (["1", "true", "yes"] : List String).contains (lowerStr (v.getD ""))

/-- DEFAULT_MODEL = "facebook/mms-tts-kin" in both engines. -/
def DEFAULT_MODEL : String := "facebook/mms-tts-kin"

/-- The latency measurement: latency_ms = (t1 - t0) * 1000 where t0 and t1
are the two time.perf_counter() readings around the model call. -/
def latencyOf (t0 t1 : ℚ) : ℚ := (t1 - t0) * 1000

/-- The audio both synthesize functions take forward to _to_wav_bytes:
the model's audio, or the two-second silence fallback
np.zeros(int(sr * 2)) when it is None. -/
def fallbackAudio (output : PipelineOutput) (sr : ℕ) : Signal :=
  match output.audio with
  | some a => a
  | none => List.replicate (sr * 2) (0 : ℚ)

/-! ## The Plumber inference engine, src/inference/tts_engine.py -/

namespace Inference

/-- A loaded transformers text-to-speech pipeline as the engine uses it:
its model config and its behaviour on a text input (unpacked to the
dict fields the engine reads). -/
structure Model where
  config : TekanaAI.ModelConfig
  run : String → TekanaAI.PipelineOutput

/-- The process environment and external world load_model consults:
the TTS_* environment variables, the filesystem facts about
artifacts/final_model, and the external transformers pipeline loader. -/
structure Env where
  ttsUsePretrained : Option String
  ttsModelPath : Option String
  ttsProjectRoot : Option String
  scriptParentDir : String
  finalModelDirExists : Bool
  configJsonExists : Bool
  loadPipeline : String → Model

/-- get_model_dir(): TTS_PROJECT_ROOT (or the script's parent directory)
joined with artifacts/final_model. -/
def get_model_dir (env : Env) : String :=
  (env.ttsProjectRoot.getD env.scriptParentDir) ++ "/artifacts/final_model"

/-- The model path selected by load_model lines 26-31: TTS_MODEL_PATH
(default DEFAULT_MODEL), overridden by the local final_model directory
when TTS_USE_PRETRAINED is falsy and the directory exists with a
config.json. -/
def chooseModelPath (env : Env) : String :=
  let model_path := env.ttsModelPath.getD TekanaAI.DEFAULT_MODEL
  let use_pretrained := TekanaAI.usePretrainedFlag env.ttsUsePretrained
  if ¬use_pretrained ∧ env.finalModelDirExists ∧ env.configJsonExists then
    get_model_dir env
  else
    model_path

/-- The module-level handle together with the _sampling_rate attribute
load_model caches on it. -/
structure LoadedModel where
  model : Model
  samplingRate : ℕ

/-- The module state: the global _model, None until the first load. -/
structure EngineState where
  _model : Option LoadedModel

/-- The value load_model leaves in _model: the existing handle if one is
cached, otherwise the freshly loaded pipeline with _sampling_rate set from
its config. -/
def load_modelValue (env : Env) (s : EngineState) : LoadedModel :=
  match s._model with
  | some lm => lm
  | none =>
    let m := env.loadPipeline (chooseModelPath env)
    { model := m, samplingRate := TekanaAI.cachedSamplingRate m.config }

/-- load_model(): return immediately when _model is not None, otherwise
load the pipeline at the chosen path and cache the sampling rate. -/
def load_model (env : Env) (s : EngineState) : EngineState :=
  match s._model with
  | some _ => s
  | none => { _model := some (load_modelValue env s) }

/-- _to_wav_bytes up to (but not including) peak normalization:
clip to [-1,1]; resample to target_sr = 16000 when the incoming rate
differs (the rate variable is then 16000); apply the 80 Hz - 7 kHz
bandpass; clip again.  Returns the post-filter audio and the rate that
will be recorded in the WAV. -/
def to_wav_bytes_preNorm (dsp : TekanaAI.DSP) (audio : TekanaAI.Signal)
    (sampling_rate : ℕ) : TekanaAI.Signal × ℕ :=
  let target_sr := 16000
  let audio := TekanaAI.clipSignal audio
  let step :=
    if sampling_rate ≠ target_sr then
      (dsp.resamplePoly target_sr sampling_rate audio, target_sr)
    else
      (audio, sampling_rate)
  let audio := dsp.bandpass step.2 step.1
  (TekanaAI.clipSignal audio, step.2)

/-- _to_wav_bytes(audio, sampling_rate): the full chain, ending with peak
normalization and the sf.write call (modelled as building a Wav value). -/
def to_wav_bytes (dsp : TekanaAI.DSP) (audio : TekanaAI.Signal)
    (sampling_rate : ℕ) : TekanaAI.Wav :=
  let step := to_wav_bytes_preNorm dsp audio sampling_rate
  { rate := step.2, samples := TekanaAI.normalizePeak step.1 }

/-- The pair synthesize returns. -/
structure SynthResult where
  wav : TekanaAI.Wav
  latency_ms : ℚ
deriving DecidableEq

/-- synthesize(text, speaker_id): coerce speaker_id (never used again),
ensure the model is loaded, run it, unpack audio and rate, override the
rate with the cached _model._sampling_rate, fall back to int(sr * 2) zero
samples when the model yielded no audio, and encode.  t0 and t1 are the
two clock readings.  Returns the module state after the call and the
(wav_bytes, latency_ms) pair. -/
def synthesize (dsp : TekanaAI.DSP) (env : Env) (t0 t1 : ℚ)
    (s : EngineState) (text : String) (speaker_id : TekanaAI.SpeakerArg) :
    EngineState × SynthResult :=
  let _coerced := TekanaAI.coerceSpeakerId speaker_id
  let s' := load_model env s
  let lm := load_modelValue env s
  let output := lm.model.run text
  let latency_ms := TekanaAI.latencyOf t0 t1
  -- lines 102-106: sr is unconditionally replaced by _model._sampling_rate
  -- (the handle always carries the attribute once load_model has run)
  let sr := lm.samplingRate
  let audio := TekanaAI.fallbackAudio output sr
  (s', { wav := to_wav_bytes dsp audio sr, latency_ms := latency_ms })

end Inference

/-! ## The Shiny inference engine, src/shiny_app/www/scripts/tts_engine.py -/

namespace Shiny

/-- A loaded pipeline as the Shiny engine uses it.  runFP models the call
with forward_params (noise_scale, noise_scale_duration); it returns none
exactly when that call raises TypeError on an older transformers, in which
case the engine falls back to the plain call run. -/
structure Model where
  config : TekanaAI.ModelConfig
  runFP : String → ℚ → ℚ → Option TekanaAI.PipelineOutput
  run : String → TekanaAI.PipelineOutput

/-- The environment of the Shiny engine: like the Plumber one, plus the
result of _has_weights(model_dir) and the parsed float values of
TTS_NOISE_SCALE and TTS_NOISE_SCALE_DURATION. -/
structure Env where
  ttsUsePretrained : Option String
  ttsModelPath : Option String
  ttsProjectRoot : Option String
  scriptParentDir : String
  finalModelDirExists : Bool
  configJsonExists : Bool
  hasWeightFile : Bool
  ttsNoiseScale : Option ℚ
  ttsNoiseScaleDuration : Option ℚ
  loadPipeline : String → Model

/-- Module constant _NOISE_SCALE = float(os.environ.get("TTS_NOISE_SCALE", "0.333")). -/
def noiseScaleConst (env : Env) : ℚ := env.ttsNoiseScale.getD (333 / 1000)

/-- Module constant _NOISE_SCALE_DURATION =
float(os.environ.get("TTS_NOISE_SCALE_DURATION", "0.4")). -/
def noiseScaleDurationConst (env : Env) : ℚ := env.ttsNoiseScaleDuration.getD (4 / 10)

/-- get_model_dir() of the Shiny engine (same path computation). -/
def get_model_dir (env : Env) : String :=
  (env.ttsProjectRoot.getD env.scriptParentDir) ++ "/artifacts/final_model"

/-- The model path selected by Shiny load_model lines 59-64: the local
final_model directory only when TTS_USE_PRETRAINED is falsy and the
directory exists with a config.json AND a weight file (_has_weights). -/
def chooseModelPath (env : Env) : String :=
  let model_path := env.ttsModelPath.getD TekanaAI.DEFAULT_MODEL
  let use_pre := TekanaAI.usePretrainedFlag env.ttsUsePretrained
  if ¬use_pre ∧ env.finalModelDirExists ∧ env.configJsonExists ∧ env.hasWeightFile then
    get_model_dir env
  else
    model_path

/-- The cached handle: the pipeline, its cached _sampling_rate, and the
noise_scale / noise_scale_duration values load_model writes into the
model config (lines 88-89). -/
structure LoadedModel where
  model : Model
  samplingRate : ℕ
  noise_scale : ℚ
  noise_scale_duration : ℚ

/-- The module state: the global _model handle. -/
structure EngineState where
  _model : Option LoadedModel

/-- The value Shiny load_model leaves in _model. -/
def load_modelValue (env : Env) (s : EngineState) : LoadedModel :=
  match s._model with
  | some lm => lm
  | none =>
    let m := env.loadPipeline (chooseModelPath env)
    { model := m
      samplingRate := TekanaAI.cachedSamplingRate m.config
      noise_scale := noiseScaleConst env
      noise_scale_duration := noiseScaleDurationConst env }

/-- Shiny load_model(): return when _model is not None, else load. -/
def load_model (env : Env) (s : EngineState) : EngineState :=
  match s._model with
  | some _ => s
  | none => { _model := some (load_modelValue env s) }

/-- Shiny _to_wav_bytes before peak normalization: clip, resample to
16000 when needed, apply the gentle DC-removal high-pass, clip again. -/
def to_wav_bytes_preNorm (dsp : TekanaAI.DSP) (audio : TekanaAI.Signal)
    (sampling_rate : ℕ) : TekanaAI.Signal × ℕ :=
  let target_sr := 16000
  let audio := TekanaAI.clipSignal audio
  let step :=
    if sampling_rate ≠ target_sr then
      (dsp.resamplePoly target_sr sampling_rate audio, target_sr)
    else
      (audio, sampling_rate)
  let audio := dsp.removeDC step.2 step.1
  (TekanaAI.clipSignal audio, step.2)

/-- Shiny _to_wav_bytes(audio, sampling_rate): full chain into a Wav. -/
def to_wav_bytes (dsp : TekanaAI.DSP) (audio : TekanaAI.Signal)
    (sampling_rate : ℕ) : TekanaAI.Wav :=
  let step := to_wav_bytes_preNorm dsp audio sampling_rate
  { rate := step.2, samples := TekanaAI.normalizePeak step.1 }

/-- The pair Shiny synthesize returns. -/
structure SynthResult where
  wav : TekanaAI.Wav
  latency_ms : ℚ
deriving DecidableEq

/-- The pipeline call of Shiny synthesize lines 162-172: the call with
forward_params made from the module noise-scale constants, falling back
to the plain call when that raises TypeError. -/
def modelOutput (env : Env) (lm : LoadedModel) (text : String) :
    TekanaAI.PipelineOutput :=
  match lm.model.runFP text (noiseScaleConst env) (noiseScaleDurationConst env) with
  | some o => o
  | none => lm.model.run text

/-- Shiny synthesize(text, speaker_id): coerce speaker_id (never used
again), load the model, call it with the module noise scales (falling
back to the plain call when forward_params is unsupported), take the
cached _model._sampling_rate as sr (line 187 overrides unconditionally),
substitute int(sr * 2) zeros when audio is None, and encode. -/
def synthesize (dsp : TekanaAI.DSP) (env : Env) (t0 t1 : ℚ)
    (s : EngineState) (text : String) (speaker_id : TekanaAI.SpeakerArg) :
    EngineState × SynthResult :=
  let _coerced := TekanaAI.coerceSpeakerId speaker_id
  let s' := load_model env s
  let lm := load_modelValue env s
  let output := modelOutput env lm text
  let latency_ms := TekanaAI.latencyOf t0 t1
  let sr := lm.samplingRate
  let audio := TekanaAI.fallbackAudio output sr
  (s', { wav := to_wav_bytes dsp audio sr, latency_ms := latency_ms })

end Shiny

/-! ## The parquet decoder, src/scripts/data_pipeline/decode_parquet_to_wav.py -/

namespace DecodeParquet

/-- TARGET_SR = 16000. -/
def TARGET_SR : ℕ := 16000

/-- Raw audio bytes as stored in the parquet audio column. -/
abbrev Bytes := List ℕ

/-- The external decoding and resampling libraries decode_audio_bytes
calls: sf.read (returning mono float data and a rate, or raising, which
we model as an error value) and scipy.signal.resample (the decoder
averages multichannel data to mono right after sf.read; Signal is mono,
so that collapse is folded into sfRead). -/
structure DecodeEnv where
  sfRead : Bytes → Except String (TekanaAI.Signal × ℕ)
  resample : TekanaAI.Signal → ℕ → TekanaAI.Signal

/-- decode_audio_bytes(audio_bytes, target_sr): sf.read, then resample to
num = int(len(arr) * target_sr / sr) samples when the rate differs. -/
def decode_audio_bytes (d : DecodeEnv) (audio_bytes : Bytes) (target_sr : ℕ) :
    Except String (TekanaAI.Signal × ℕ) :=
  match d.sfRead audio_bytes with
  | .error e => .error e
  | .ok (arr, sr) =>
    if sr ≠ target_sr then
      let num := arr.length * target_sr / sr
      .ok (d.resample arr num, target_sr)
    else
      .ok (arr, sr)

/-- One row of the concatenated parquet table, as the decoder reads it:
the audio cell (None, or a struct whose "bytes" field may itself be
absent), the transcript and the speaker id. -/
structure ParquetRow where
  audio : Option (Option Bytes)
  text : String
  speaker_id : ℤ

/-- One row of the metadata table the decoder appends: exactly the five
fields of the dict literal at line 76. -/
structure MetaRow where
  split : String
  path : String
  text : String
  speaker_id : ℤ
  duration_sec : ℚ
deriving DecidableEq

/-- The observable effects of run_split: the sf.write(path, arr, sr) calls
made (in order), the messages printed to stderr, and the metadata rows
accumulated. -/
structure SplitResult where
  files : List (String × TekanaAI.Signal × ℕ)
  stderrLog : List String
  rows : List MetaRow
deriving DecidableEq

/-- Python round(x, 4) on the float nearest to x: away from four-decimal
ties it agrees with exact rounding of x * 10^4 to the nearest integer,
which is what is modelled here; the half-to-even convention is used at
exact ties (where the binary float's own rounding error would decide in
Python). -/
def roundHalfEven (x : ℚ) : ℤ :=
  let f := ⌊x⌋
  let frac := x - f
  if frac < 1 / 2 then f
  else if 1 / 2 < frac then f + 1
  else if f % 2 = 0 then f else f + 1

/-- round(dur, 4). -/
def round4 (x : ℚ) : ℚ := (roundHalfEven (x * 10000) : ℚ) / 10000

/-- f"{name}_{i:06d}" zero-padding of the row index. -/
def pad6 (i : ℕ) : String :=
  let s := toString i
  String.mk (List.replicate (6 - s.length) '0') ++ s

/-- os.path.join(wav_dir, f"{name}_{i:06d}.wav"). -/
def pathFor (wav_dir name : String) (i : ℕ) : String :=
  wav_dir ++ "/" ++ name ++ "_" ++ pad6 i ++ ".wav"

/-- The stderr message of line 67: f"Skip row {i}: {e}". -/
def skipMsg (i : ℕ) (e : String) : String :=
  "Skip row " ++ toString i ++ ": " ++ e

/-- The body of the run_split loop for row i (lines 51-76): skip a null
audio cell silently; skip absent or empty bytes silently; on a decoding
error print the skip message and continue; otherwise write the WAV and
append the metadata row. -/
def processRow (d : DecodeEnv) (wav_dir name : String) (i : ℕ)
    (row : ParquetRow) (acc : SplitResult) : SplitResult :=
  match row.audio with
  | none => acc
  | some audioVal =>
    match audioVal with
    | none => acc
    | some audio_bytes =>
      if audio_bytes.isEmpty then acc
      else
        match decode_audio_bytes d audio_bytes TARGET_SR with
        | .error e =>
          { acc with stderrLog := acc.stderrLog ++ [skipMsg i e] }
        | .ok (arr, sr) =>
          let path := pathFor wav_dir name i
          let dur : ℚ := (arr.length : ℚ) / (sr : ℚ)
          { files := acc.files ++ [(path, arr, sr)]
            stderrLog := acc.stderrLog
            rows := acc.rows ++ [{ split := name, path := path, text := row.text,
                                   speaker_id := row.speaker_id,
                                   duration_sec := round4 dur }] }

/-- The run_split loop from row index i onward. -/
def run_splitFrom (d : DecodeEnv) (wav_dir name : String) :
    ℕ → List ParquetRow → SplitResult → SplitResult
  | _, [], acc => acc
  | i, row :: rest, acc =>
    run_splitFrom d wav_dir name (i + 1) rest (processRow d wav_dir name i row acc)

/-- run_split(name, files) applied to the concatenated table's rows. -/
def run_split (d : DecodeEnv) (wav_dir name : String)
    (tableRows : List ParquetRow) : SplitResult :=
  run_splitFrom d wav_dir name 0 tableRows { files := [], stderrLog := [], rows := [] }

/-- main lines 79-86: run_split for each of the three split names whose
file list is non-empty (a split's shards are given as a list of row
lists; pa.concat_tables flattens them), concatenated into the metadata
table that is written to metadata.csv. -/
def mainRows (d : DecodeEnv) (wav_dir : String)
    (train_files valid_files test_files : List (List ParquetRow)) : List MetaRow :=
  (if train_files.isEmpty then []
   else (run_split d wav_dir "train" train_files.flatten).rows)
  ++ (if valid_files.isEmpty then []
      else (run_split d wav_dir "validation" valid_files.flatten).rows)
  ++ (if test_files.isEmpty then []
      else (run_split d wav_dir "test" test_files.flatten).rows)

end DecodeParquet

/-! ## The fine-tuning loop, src/scripts/training/train_mms_tts.py -/

namespace Train

/-- The outcome of one iteration of the inner loop at lines 141-170, after
the DataLoader produced the batch: the collate function returned None
(line 142 continue); the generated/target overlap was shorter than 1600
samples (line 156 continue); the try block raised (line 169-170, the
exception is swallowed and the loop continues); or the optimizer step
completed with the given loss value loss.item(). -/
inductive BatchOutcome
  | isNone
  | tooShort
  | raised
  | stepped (loss : ℚ)

/-- The per-epoch accounting the loop maintains (lines 138-139, 165-166). -/
structure EpochState where
  epoch_loss : ℚ
  n_batches : ℕ
deriving DecidableEq

/-- The effect of one loop iteration on the epoch accounting: only a
completed step adds loss.item() to epoch_loss and increments n_batches;
every other outcome reaches a continue with the accounting untouched. -/
def processBatch (o : BatchOutcome) (s : EpochState) : EpochState :=
  match o with
  | .stepped l => { epoch_loss := s.epoch_loss + l, n_batches := s.n_batches + 1 }
  | _ => s

/-- One epoch's accounting, folding the loop body over the batches the
loader yields. -/
def runEpoch (outcomes : List BatchOutcome) : EpochState :=
  outcomes.foldl (fun s o => processBatch o s) { epoch_loss := 0, n_batches := 0 }

end Train

/-! ## Predicates used by the theorems -/

/-- The all-zero (silent) signal predicate. -/
def ZeroSig (a : Signal) : Prop := ∀ x ∈ a, x = 0

namespace DecodeParquet

/-- A malformed parquet row in the sense of the skip paths of run_split:
a null audio cell, a struct without bytes, empty bytes, or bytes on which
decode_audio_bytes raises. -/
def Malformed (d : DecodeEnv) (row : ParquetRow) : Prop :=
  row.audio = none ∨ row.audio = some none ∨ row.audio = some (some []) ∨
  ∃ b e, row.audio = some (some b) ∧
    decode_audio_bytes d b TARGET_SR = .error e

end DecodeParquet

/-! ## Concrete instances for witnesses and counterexamples -/

/-- A concrete DSP assignment for evaluating the embedding: each external
filter is taken to be the signal-preserving map (any concrete choice
satisfying the zero-preservation hypotheses would do). -/
def dspId : DSP :=
  { bandpass := fun _ a => a
    removeDC := fun _ a => a
    resamplePoly := fun _ _ a => a }

/-- A pipeline whose config carries a 22050 Hz sampling rate and which
yields one nonzero sample: exhibits a model rate different from the
fixed 16000 Hz target of _to_wav_bytes. -/
def model22k : Inference.Model :=
  { config := { samplingRate := some 22050, sampleRate := none }
    run := fun _ => { audio := some [1], samplingRate := some 22050 } }

/-- An inference-engine environment loading model22k. -/
def env22k : Inference.Env :=
  { ttsUsePretrained := some "1"
    ttsModelPath := none
    ttsProjectRoot := none
    scriptParentDir := ""
    finalModelDirExists := false
    configJsonExists := false
    loadPipeline := fun _ => model22k }

/-- A 16 kHz pipeline that yields no audio (output audio is None). -/
def modelNoAudio : Inference.Model :=
  { config := { samplingRate := some 16000, sampleRate := none }
    run := fun _ => { audio := none, samplingRate := none } }

/-- An inference-engine environment loading modelNoAudio. -/
def envNoAudio : Inference.Env :=
  { env22k with loadPipeline := fun _ => modelNoAudio }

/-- A 16 kHz Shiny pipeline that yields no audio on either call form. -/
def smodelNoAudio : Shiny.Model :=
  { config := { samplingRate := some 16000, sampleRate := none }
    runFP := fun _ _ _ => some { audio := none, samplingRate := none }
    run := fun _ => { audio := none, samplingRate := none } }

/-- A Shiny environment loading smodelNoAudio. -/
def senvNoAudio : Shiny.Env :=
  { ttsUsePretrained := some "1"
    ttsModelPath := none
    ttsProjectRoot := none
    scriptParentDir := ""
    finalModelDirExists := false
    configJsonExists := false
    hasWeightFile := false
    ttsNoiseScale := none
    ttsNoiseScaleDuration := none
    loadPipeline := fun _ => smodelNoAudio }

/-- A 16 kHz pipeline yielding the one-sample signal [1]. -/
def modelOne : Inference.Model :=
  { config := { samplingRate := some 16000, sampleRate := none }
    run := fun _ => { audio := some [1], samplingRate := some 16000 } }

/-- An inference-engine environment loading modelOne. -/
def envOne : Inference.Env :=
  { env22k with loadPipeline := fun _ => modelOne }

/-- A 16 kHz Shiny pipeline yielding the one-sample signal [1]. -/
def smodelOne : Shiny.Model :=
  { config := { samplingRate := some 16000, sampleRate := none }
    runFP := fun _ _ _ => some { audio := some [1], samplingRate := some 16000 }
    run := fun _ => { audio := some [1], samplingRate := some 16000 } }

/-- A Shiny environment loading smodelOne. -/
def senvOne : Shiny.Env :=
  { senvNoAudio with loadPipeline := fun _ => smodelOne }

/-- An inference-engine environment with TTS_USE_PRETRAINED set to "TRUE"
(mixed case) and an explicit TTS_MODEL_PATH, while a local final_model
directory with a config.json is present. -/
def envPretrained : Inference.Env :=
  { ttsUsePretrained := some "TRUE"
    ttsModelPath := some "custom/model"
    ttsProjectRoot := some "/proj"
    scriptParentDir := ""
    finalModelDirExists := true
    configJsonExists := true
    loadPipeline := fun _ => modelOne }

/-- An inference-engine environment with TTS_USE_PRETRAINED unset and a
qualifying local final_model directory. -/
def envLocal : Inference.Env :=
  { envPretrained with ttsUsePretrained := none }

/-- A Shiny environment with TTS_USE_PRETRAINED unset, a qualifying local
directory including weights, and both noise variables set. -/
def senvLocal : Shiny.Env :=
  { ttsUsePretrained := none
    ttsModelPath := some "custom/model"
    ttsProjectRoot := some "/proj"
    scriptParentDir := ""
    finalModelDirExists := true
    configJsonExists := true
    hasWeightFile := true
    ttsNoiseScale := some (1 / 2)
    ttsNoiseScaleDuration := some (3 / 4)
    loadPipeline := fun _ => smodelOne }

/-- A Shiny environment like senvLocal but with TTS_USE_PRETRAINED = "yes". -/
def senvPretrained : Shiny.Env :=
  { senvLocal with ttsUsePretrained := some "yes" }

/-- A decode environment whose reader always succeeds with one sample of
silence at 16 kHz (duration 1/16000 s, which rounds to 0.0001). -/
def denvGood : DecodeParquet.DecodeEnv :=
  { sfRead := fun _ => .ok ([(0 : ℚ)], 16000)
    resample := fun a _ => a }

/-- A decode environment whose reader always raises. -/
def denvErr : DecodeParquet.DecodeEnv :=
  { sfRead := fun _ => .error "decode failure"
    resample := fun a _ => a }

/-- A parquet row with a null audio cell. -/
def rowNull : DecodeParquet.ParquetRow :=
  { audio := none, text := "muraho", speaker_id := 0 }

/-- A parquet row with one byte of audio payload. -/
def rowGood : DecodeParquet.ParquetRow :=
  { audio := some (some [1]), text := "muraho", speaker_id := 7 }

/-! ## Helper lemmas about the audio post-processing chain -/

theorem clip1_abs_le (x : ℚ) : |clip1 x| ≤ 1 := by
  unfold clip1
  rw [abs_le]
  constructor
  · exact le_max_left _ _
  · exact max_le (by norm_num) (min_le_left _ _)

theorem clip1_zero : clip1 0 = 0 := by
  simp [clip1]

theorem clipSignal_abs_le (a : Signal) : ∀ y ∈ clipSignal a, |y| ≤ 1 := by
  intro y hy
  rcases List.mem_map.mp hy with ⟨x, _, rfl⟩
  exact clip1_abs_le x

theorem zeroSig_map (f : ℚ → ℚ) (hf : f 0 = 0) (a : Signal)
    (h : ZeroSig a) : ZeroSig (a.map f) := by
  intro x hx
  rcases List.mem_map.mp hx with ⟨y, hy, rfl⟩
  rw [h y hy, hf]

theorem zeroSig_clipSignal (a : Signal) (h : ZeroSig a) : ZeroSig (clipSignal a) :=
  zeroSig_map clip1 clip1_zero a h

theorem zeroSig_replicate (k : ℕ) : ZeroSig (List.replicate k (0 : ℚ)) := by
  intro x hx
  exact List.eq_of_mem_replicate hx

theorem zeroSig_normalizePeak (a : Signal) (h : ZeroSig a) :
    ZeroSig (normalizePeak a) := by
  unfold normalizePeak
  split
  · exact zeroSig_map _ (by norm_num) a h
  · exact h

theorem peak_nil : peak [] = 0 := rfl

theorem peak_cons (x : ℚ) (xs : Signal) : peak (x :: xs) = max |x| (peak xs) := rfl

theorem peak_nonneg (a : Signal) : 0 ≤ peak a := by
  induction a with
  | nil => exact le_refl 0
  | cons x xs ih =>
    rw [peak_cons]
    exact le_trans ih (le_max_right _ _)

theorem abs_le_peak {a : Signal} {x : ℚ} (hx : x ∈ a) : |x| ≤ peak a := by
  induction a with
  | nil => cases hx
  | cons y ys ih =>
    rw [peak_cons]
    rcases List.mem_cons.mp hx with rfl | h
    · exact le_max_left _ _
    · exact le_trans (ih h) (le_max_right _ _)

theorem peak_map_abs_mul (a : Signal) (f : ℚ → ℚ) (c : ℚ) (hc : 0 ≤ c)
    (hf : ∀ x, |f x| = |x| * c) : peak (a.map f) = peak a * c := by
  induction a with
  | nil => simp [peak_nil]
  | cons x xs ih =>
    rw [List.map_cons, peak_cons, peak_cons, ih, hf, max_mul_of_nonneg _ _ hc]

theorem peak_normalizePeak {a : Signal} (h : 1 / 1000000 < peak a) :
    peak (normalizePeak a) = 95 / 100 := by
  have hp : 0 < peak a := lt_trans (by norm_num) h
  unfold normalizePeak
  rw [if_pos h]
  rw [peak_map_abs_mul a _ ((95 / 100) / peak a) (by positivity) ?_]
  · field_simp
    ring
  · intro x
    rw [abs_mul, abs_div, abs_of_pos hp]
    rw [show |(95 : ℚ) / 100| = 95 / 100 by norm_num]
    ring

theorem normalizePeak_abs_le {a : Signal} (h : ∀ x ∈ a, |x| ≤ 1) :
    ∀ y ∈ normalizePeak a, |y| ≤ 1 := by
  intro y hy
  unfold normalizePeak at hy
  split at hy
  case isTrue hc =>
    rcases List.mem_map.mp hy with ⟨x, hx, rfl⟩
    have hp : 0 < peak a := lt_trans (by norm_num) hc
    have hxp : |x| ≤ peak a := abs_le_peak hx
    have habs : |x / peak a * (95 / 100)| = |x| / peak a * (95 / 100) := by
      rw [abs_mul, abs_div, abs_of_pos hp]
      norm_num
    rw [habs]
    have h1 : |x| / peak a ≤ 1 := (div_le_one hp).mpr hxp
    nlinarith
  case isFalse =>
    exact h y hy

/-! ## Helper lemmas about the engines -/

theorem inference_preNorm_fst (dsp : DSP) (a : Signal) (sr : ℕ) :
    ∃ b, (Inference.to_wav_bytes_preNorm dsp a sr).1 = clipSignal b := by
  unfold Inference.to_wav_bytes_preNorm
  exact ⟨_, rfl⟩

theorem shiny_preNorm_fst (dsp : DSP) (a : Signal) (sr : ℕ) :
    ∃ b, (Shiny.to_wav_bytes_preNorm dsp a sr).1 = clipSignal b := by
  unfold Shiny.to_wav_bytes_preNorm
  exact ⟨_, rfl⟩

theorem inference_preNorm_snd (dsp : DSP) (a : Signal) (sr : ℕ) :
    (Inference.to_wav_bytes_preNorm dsp a sr).2 = 16000 := by
  unfold Inference.to_wav_bytes_preNorm
  by_cases h : sr = 16000 <;> simp [h]

theorem shiny_preNorm_snd (dsp : DSP) (a : Signal) (sr : ℕ) :
    (Shiny.to_wav_bytes_preNorm dsp a sr).2 = 16000 := by
  unfold Shiny.to_wav_bytes_preNorm
  by_cases h : sr = 16000 <;> simp [h]

theorem inference_to_wav_bytes_rate (dsp : DSP) (a : Signal) (sr : ℕ) :
    (Inference.to_wav_bytes dsp a sr).rate = 16000 := by
  unfold Inference.to_wav_bytes
  exact inference_preNorm_snd dsp a sr

theorem shiny_to_wav_bytes_rate (dsp : DSP) (a : Signal) (sr : ℕ) :
    (Shiny.to_wav_bytes dsp a sr).rate = 16000 := by
  unfold Shiny.to_wav_bytes
  exact shiny_preNorm_snd dsp a sr

theorem inference_to_wav_bytes_samples (dsp : DSP) (a : Signal) (sr : ℕ) :
    (Inference.to_wav_bytes dsp a sr).samples
      = normalizePeak (Inference.to_wav_bytes_preNorm dsp a sr).1 := rfl

theorem shiny_to_wav_bytes_samples (dsp : DSP) (a : Signal) (sr : ℕ) :
    (Shiny.to_wav_bytes dsp a sr).samples
      = normalizePeak (Shiny.to_wav_bytes_preNorm dsp a sr).1 := rfl

theorem inference_synthesize_snd (dsp : DSP) (env : Inference.Env) (t0 t1 : ℚ)
    (s : Inference.EngineState) (text : String) (sid : SpeakerArg) :
    (Inference.synthesize dsp env t0 t1 s text sid).2
      = { wav := Inference.to_wav_bytes dsp
                   (fallbackAudio ((Inference.load_modelValue env s).model.run text)
                     (Inference.load_modelValue env s).samplingRate)
                   (Inference.load_modelValue env s).samplingRate
          latency_ms := latencyOf t0 t1 } := rfl

theorem shiny_synthesize_snd (dsp : DSP) (env : Shiny.Env) (t0 t1 : ℚ)
    (s : Shiny.EngineState) (text : String) (sid : SpeakerArg) :
    (Shiny.synthesize dsp env t0 t1 s text sid).2
      = { wav := Shiny.to_wav_bytes dsp
                   (fallbackAudio (Shiny.modelOutput env (Shiny.load_modelValue env s) text)
                     (Shiny.load_modelValue env s).samplingRate)
                   (Shiny.load_modelValue env s).samplingRate
          latency_ms := latencyOf t0 t1 } := rfl

theorem inference_synthesize_fst (dsp : DSP) (env : Inference.Env) (t0 t1 : ℚ)
    (s : Inference.EngineState) (text : String) (sid : SpeakerArg) :
    (Inference.synthesize dsp env t0 t1 s text sid).1 = Inference.load_model env s := rfl

theorem shiny_synthesize_fst (dsp : DSP) (env : Shiny.Env) (t0 t1 : ℚ)
    (s : Shiny.EngineState) (text : String) (sid : SpeakerArg) :
    (Shiny.synthesize dsp env t0 t1 s text sid).1 = Shiny.load_model env s := rfl

/-- The zero signal stays zero through the inference engine chain up to
normalization, given that the external resampler and bandpass preserve it. -/
theorem inference_preNorm_zero (dsp : DSP) (a : Signal) (sr : ℕ)
    (hrp : ∀ u v b, ZeroSig b → ZeroSig (dsp.resamplePoly u v b))
    (hbp : ∀ r b, ZeroSig b → ZeroSig (dsp.bandpass r b))
    (ha : ZeroSig a) : ZeroSig (Inference.to_wav_bytes_preNorm dsp a sr).1 := by
  unfold Inference.to_wav_bytes_preNorm
  by_cases h : sr = 16000 <;>
    simp only [h, ne_eq, not_true_eq_false, if_false, if_true, ite_not] <;>
  · apply zeroSig_clipSignal
    apply hbp
    first
      | exact hrp _ _ _ (zeroSig_clipSignal a ha)
      | exact zeroSig_clipSignal a ha

/-- The zero signal stays zero through the Shiny engine chain up to
normalization. -/
theorem shiny_preNorm_zero (dsp : DSP) (a : Signal) (sr : ℕ)
    (hrp : ∀ u v b, ZeroSig b → ZeroSig (dsp.resamplePoly u v b))
    (hdc : ∀ r b, ZeroSig b → ZeroSig (dsp.removeDC r b))
    (ha : ZeroSig a) : ZeroSig (Shiny.to_wav_bytes_preNorm dsp a sr).1 := by
  unfold Shiny.to_wav_bytes_preNorm
  by_cases h : sr = 16000 <;>
    simp only [h, ne_eq, not_true_eq_false, if_false, if_true, ite_not] <;>
  · apply zeroSig_clipSignal
    apply hdc
    first
      | exact hrp _ _ _ (zeroSig_clipSignal a ha)
      | exact zeroSig_clipSignal a ha

/-! ## Helper lemmas about the parquet decoder -/

namespace DecodeParquet

/-- An invariant preserved by every loop iteration is preserved by the
whole run_split loop (rows may be constrained by R). -/
theorem run_splitFrom_preserves (d : DecodeEnv) (w n : String)
    (P : SplitResult → Prop) (R : ParquetRow → Prop)
    (hstep : ∀ j row acc, R row → P acc → P (processRow d w n j row acc)) :
    ∀ rs, (∀ row ∈ rs, R row) → ∀ i acc, P acc →
      P (run_splitFrom d w n i rs acc) := by
  intro rs
  induction rs with
  | nil =>
    intro _ i acc h
    simpa [run_splitFrom] using h
  | cons row rest ih =>
    intro hr i acc h
    simp only [run_splitFrom]
    exact ih (fun r hrr => hr r (List.mem_cons_of_mem _ hrr)) (i + 1) _
      (hstep i row acc (hr row (List.mem_cons_self _ _)) h)

/-- Case analysis of one loop iteration: it either leaves the result
untouched (null cell, absent or empty bytes), records only the skip
message (decoding error), or writes the WAV and appends the metadata
row. -/
theorem processRow_cases (d : DecodeEnv) (w n : String) (j : ℕ)
    (row : ParquetRow) (acc : SplitResult) :
    processRow d w n j row acc = acc ∨
    (∃ b e, row.audio = some (some b) ∧ b ≠ [] ∧
       decode_audio_bytes d b TARGET_SR = .error e ∧
       processRow d w n j row acc
         = { acc with stderrLog := acc.stderrLog ++ [skipMsg j e] }) ∨
    (∃ b arr sr, row.audio = some (some b) ∧ b ≠ [] ∧
       decode_audio_bytes d b TARGET_SR = .ok (arr, sr) ∧
       processRow d w n j row acc
         = { files := acc.files ++ [(pathFor w n j, arr, sr)]
             stderrLog := acc.stderrLog
             rows := acc.rows ++
               [{ split := n, path := pathFor w n j, text := row.text,
                  speaker_id := row.speaker_id,
                  duration_sec := round4 ((arr.length : ℚ) / (sr : ℚ)) }] }) := by
  rcases row with ⟨audioCell, text, spk⟩
  rcases audioCell with _ | audioVal
  · exact Or.inl rfl
  rcases audioVal with _ | b
  · exact Or.inl rfl
  by_cases hb : b = []
  · subst hb
    exact Or.inl rfl
  rcases hd : decode_audio_bytes d b TARGET_SR with e | p
  · refine Or.inr (Or.inl ⟨b, e, rfl, hb, hd, ?_⟩)
    simp only [processRow, List.isEmpty_eq_true]
    rw [if_neg hb, hd]
  · rcases p with ⟨arr, sr⟩
    refine Or.inr (Or.inr ⟨b, arr, sr, rfl, hb, hd, ?_⟩)
    simp only [processRow, List.isEmpty_eq_true]
    rw [if_neg hb, hd]

/-- The effect of a malformed row on one loop iteration, split by the two
silent skip paths and the logged decoding-error path. -/
theorem processRow_malformed (d : DecodeEnv) (w n : String) (j : ℕ)
    (row : ParquetRow) (acc : SplitResult) (hm : Malformed d row) :
    (processRow d w n j row acc).rows = acc.rows ∧
    (processRow d w n j row acc).files = acc.files := by
  rcases processRow_cases d w n j row acc with h | ⟨b, e, _, _, _, h⟩ | ⟨b, arr, sr, hau, hb, hok, h⟩
  · rw [h]; exact ⟨rfl, rfl⟩
  · rw [h]; exact ⟨rfl, rfl⟩
  · exfalso
    rcases hm with h1 | h1 | h1 | ⟨b', e', hb', herr⟩
    · rw [h1] at hau; cases hau
    · rw [h1] at hau; cases hau
    · rw [h1] at hau
      injection hau with hau
      injection hau with hau
      exact hb hau.symm
    · rw [hb'] at hau
      injection hau with hau
      injection hau with hau
      rw [hau] at herr
      rw [hok] at herr
      cases herr

end DecodeParquet

/-- Evaluation of the decoder on the concrete one-sample row: a single
WAV write and a single metadata row with the rounded duration. -/
theorem run_split_denvGood_rows :
    (DecodeParquet.run_split denvGood "wav" "train" [rowGood]).rows
      = [{ split := "train", path := "wav/train_000000.wav", text := "muraho",
           speaker_id := 7, duration_sec := 1 / 10000 }] := by
  simp [DecodeParquet.run_split, DecodeParquet.run_splitFrom,
    DecodeParquet.processRow, denvGood, rowGood, DecodeParquet.decode_audio_bytes,
    DecodeParquet.TARGET_SR, DecodeParquet.pathFor, DecodeParquet.pad6]
  constructor
  · rfl
  · norm_num [DecodeParquet.round4, DecodeParquet.roundHalfEven]

/-! ## Claim theorems -/

/-- C4: In the training loop, a batch whose processing raises does not
propagate the exception; the except/continue leaves epoch_loss and
n_batches exactly as they were, and the epoch accounting over a loader
sequence containing the raising batch equals the accounting over the same
sequence with that batch removed — training proceeds with the next
batch. -/
theorem c4_raising_batch_skipped (pre post : List Train.BatchOutcome)
    (s : Train.EpochState) :
    Train.processBatch .raised s = s ∧
    Train.runEpoch (pre ++ .raised :: post) = Train.runEpoch (pre ++ post) := by
  constructor
  · rfl
  · unfold Train.runEpoch
    rw [List.foldl_append, List.foldl_append, List.foldl_cons]
    rfl

/-- C8: load_model is load-once/reuse idempotent in both engines: after
one call the module handle is non-None, a second call (under any
environment, including the call made at the top of synthesize) returns
without replacing the cached handle, and calling load_model twice leaves
the module state exactly as one call does. -/
theorem c8_load_model_idempotent (dsp : DSP) (env env2 : Inference.Env)
    (senv senv2 : Shiny.Env) (s : Inference.EngineState)
    (t : Shiny.EngineState) (t0 t1 : ℚ) (text : String) (sid : SpeakerArg) :
    (Inference.load_model env s)._model.isSome = true ∧
    Inference.load_model env2 (Inference.load_model env s)
      = Inference.load_model env s ∧
    (Inference.synthesize dsp env2 t0 t1 (Inference.load_model env s) text sid).1
      = Inference.load_model env s ∧
    (Shiny.load_model senv t)._model.isSome = true ∧
    Shiny.load_model senv2 (Shiny.load_model senv t) = Shiny.load_model senv t ∧
    (Shiny.synthesize dsp senv2 t0 t1 (Shiny.load_model senv t) text sid).1
      = Shiny.load_model senv t := by
  rcases s with ⟨_ | lm⟩ <;> rcases t with ⟨_ | slm⟩ <;>
    exact ⟨rfl, rfl, rfl, rfl, rfl, rfl⟩

/-- C10: Noninterference of speaker_id: with the same environment, module
state and text, synthesize produces the same WAV bytes for any two
speaker_id arguments (None, string, or integer) — the argument is coerced
and then never used, in both engines. -/
theorem c10_speaker_id_noninterference (dsp : DSP) (env : Inference.Env)
    (senv : Shiny.Env) (t0 t1 : ℚ) (s : Inference.EngineState)
    (t : Shiny.EngineState) (text : String) (sid1 sid2 : SpeakerArg) :
    (Inference.synthesize dsp env t0 t1 s text sid1).2.wav
      = (Inference.synthesize dsp env t0 t1 s text sid2).2.wav ∧
    (Shiny.synthesize dsp senv t0 t1 t text sid1).2.wav
      = (Shiny.synthesize dsp senv t0 t1 t text sid2).2.wav :=
  ⟨rfl, rfl⟩

/-- C9: Environment variables select the model source: a truthy
TTS_USE_PRETRAINED (1/true/yes, case-insensitive) makes both engines load
the path named by TTS_MODEL_PATH (default facebook/mms-tts-kin), never
taking the local-directory branch; with it unset or falsy, the local
final_model directory is chosen when it exists with a config.json (the
Shiny engine additionally requires a weight file); and the Shiny noise
parameters come from TTS_NOISE_SCALE and TTS_NOISE_SCALE_DURATION with
defaults 0.333 and 0.4, and are cached on the loaded handle. -/
theorem c9_env_model_source (env : Inference.Env) (senv : Shiny.Env) :
    (usePretrainedFlag env.ttsUsePretrained = true →
       Inference.chooseModelPath env = env.ttsModelPath.getD DEFAULT_MODEL) ∧
    (usePretrainedFlag senv.ttsUsePretrained = true →
       Shiny.chooseModelPath senv = senv.ttsModelPath.getD DEFAULT_MODEL) ∧
    (usePretrainedFlag env.ttsUsePretrained = false →
       env.finalModelDirExists = true → env.configJsonExists = true →
       Inference.chooseModelPath env = Inference.get_model_dir env) ∧
    (usePretrainedFlag senv.ttsUsePretrained = false →
       senv.finalModelDirExists = true → senv.configJsonExists = true →
       senv.hasWeightFile = true →
       Shiny.chooseModelPath senv = Shiny.get_model_dir senv) ∧
    Shiny.noiseScaleConst senv = senv.ttsNoiseScale.getD (333 / 1000) ∧
    Shiny.noiseScaleDurationConst senv = senv.ttsNoiseScaleDuration.getD (4 / 10) ∧
    (∀ t : Shiny.EngineState, t._model = none →
       (Shiny.load_modelValue senv t).noise_scale = Shiny.noiseScaleConst senv ∧
       (Shiny.load_modelValue senv t).noise_scale_duration
         = Shiny.noiseScaleDurationConst senv) := by
  refine ⟨?_, ?_, ?_, ?_, rfl, rfl, ?_⟩
  · intro h
    simp [Inference.chooseModelPath, h]
  · intro h
    simp [Shiny.chooseModelPath, h]
  · intro h h1 h2
    simp [Inference.chooseModelPath, h, h1, h2]
  · intro h h1 h2 h3
    simp [Shiny.chooseModelPath, h, h1, h2, h3]
  · intro t ht
    rcases t with ⟨_ | lm⟩
    · exact ⟨rfl, rfl⟩
    · cases ht

/-- Witness for C9: concrete environments exercising both directions —
TTS_USE_PRETRAINED = "TRUE" (mixed case) selects the TTS_MODEL_PATH value
even though a qualifying local directory exists; with it unset the local
directory is selected; and explicit noise variables are honoured. -/
theorem c9_env_model_source_witness :
    usePretrainedFlag envPretrained.ttsUsePretrained = true ∧
    Inference.chooseModelPath envPretrained = "custom/model" ∧
    usePretrainedFlag envLocal.ttsUsePretrained = false ∧
    Inference.chooseModelPath envLocal = "/proj/artifacts/final_model" ∧
    Shiny.chooseModelPath senvPretrained = "custom/model" ∧
    Shiny.chooseModelPath senvLocal = "/proj/artifacts/final_model" ∧
    Shiny.noiseScaleConst senvLocal = 1 / 2 ∧
    Shiny.noiseScaleDurationConst senvLocal = 3 / 4 := by
  have h1 := (c9_env_model_source envPretrained senvPretrained).1 (by decide)
  have h2 := (c9_env_model_source envLocal senvLocal).2.2.1 (by decide) rfl rfl
  have h3 := (c9_env_model_source envPretrained senvPretrained).2.1 (by decide)
  have h4 := (c9_env_model_source envLocal senvLocal).2.2.2.1 (by decide) rfl rfl rfl
  have h5 := (c9_env_model_source envLocal senvLocal).2.2.2.2.1
  have h6 := (c9_env_model_source envLocal senvLocal).2.2.2.2.2.1
  exact ⟨by decide, h1.trans rfl, by decide, h2.trans rfl, h3.trans rfl,
    h4.trans rfl, h5.trans rfl, h6.trans rfl⟩

/-- C6: Invariant of the decoder's output: every metadata row run_split
accumulates refers to a path to which the decoded WAV was written (the
sf.write call happens in the same iteration, before the row is appended),
so a metadata row for a path exists only when the WAV at that path was
written. -/
theorem c6_metadata_row_has_file (d : DecodeParquet.DecodeEnv) (w n : String)
    (rs : List DecodeParquet.ParquetRow) :
    ∀ r ∈ (DecodeParquet.run_split d w n rs).rows,
      ∃ arr sr, (r.path, arr, sr) ∈ (DecodeParquet.run_split d w n rs).files := by
  unfold DecodeParquet.run_split
  refine DecodeParquet.run_splitFrom_preserves d w n
      (fun acc => ∀ r ∈ acc.rows, ∃ arr sr, (r.path, arr, sr) ∈ acc.files)
      (fun _ => True) ?_ rs (fun _ _ => trivial) 0 _ ?_
  · intro j row acc _ hP
    rcases DecodeParquet.processRow_cases d w n j row acc with
      h | ⟨b, e, _, _, _, h⟩ | ⟨b, arr, sr, _, _, _, h⟩
    · rw [h]
      exact hP
    · rw [h]
      exact hP
    · rw [h]
      intro r hr
      rcases List.mem_append.mp hr with hr | hr
      · rcases hP r hr with ⟨arr2, sr2, hmem⟩
        exact ⟨arr2, sr2, List.mem_append.mpr (Or.inl hmem)⟩
      · rcases List.mem_singleton.mp hr with rfl
        exact ⟨arr, sr, List.mem_append.mpr (Or.inr (List.mem_singleton.mpr rfl))⟩
  · intro r hr
    simp at hr

/-- Witness for C6: on a concrete decodable row, the single metadata row's
path has a matching WAV write. -/
theorem c6_metadata_row_has_file_witness :
    ∃ arr sr, (("wav/train_000000.wav" : String), arr, sr)
      ∈ (DecodeParquet.run_split denvGood "wav" "train" [rowGood]).files :=
  c6_metadata_row_has_file denvGood "wav" "train" [rowGood]
    { split := "train", path := "wav/train_000000.wav", text := "muraho",
      speaker_id := 7, duration_sec := 1 / 10000 }
    (by rw [run_split_denvGood_rows]; exact List.mem_singleton.mpr rfl)

/-- C5 counterexample: for a decodable one-sample row at 16 kHz the
decoded sample count divided by the sample rate is 1/16000, but the
metadata row records round(1/16000, 4) = 0.0001, so duration_sec is not
the quotient itself. -/
theorem c5_duration_counterexample :
    ((DecodeParquet.run_split denvGood "wav" "train" [rowGood]).rows.map
        DecodeParquet.MetaRow.duration_sec) = [1 / 10000] ∧
    (1 / 10000 : ℚ) ≠ (1 : ℚ) / 16000 := by
  constructor
  · rw [run_split_denvGood_rows]
    rfl
  · norm_num

/-- C5 (amended): every metadata row run_split produces has exactly the
five fields of the dict literal — split equal to the split name (one of
train, validation, test at the main level), path, the source row's text
and integer speaker_id, and duration_sec equal to the decoded sample
count divided by the sample rate, rounded to four decimal places. -/
theorem c5_metadata_fields (d : DecodeParquet.DecodeEnv) (w : String)
    (tf vf ef : List (List DecodeParquet.ParquetRow)) (n : String)
    (rs : List DecodeParquet.ParquetRow) :
    (∀ r ∈ (DecodeParquet.run_split d w n rs).rows,
       r.split = n ∧
       (∃ prow ∈ rs, r.text = prow.text ∧ r.speaker_id = prow.speaker_id) ∧
       ∃ b arr sr,
         DecodeParquet.decode_audio_bytes d b DecodeParquet.TARGET_SR = .ok (arr, sr) ∧
         r.duration_sec = DecodeParquet.round4 ((arr.length : ℚ) / (sr : ℚ))) ∧
    (∀ r ∈ DecodeParquet.mainRows d w tf vf ef,
       r.split = "train" ∨ r.split = "validation" ∨ r.split = "test") := by
  have main : ∀ (m : String) (rs2 : List DecodeParquet.ParquetRow),
      ∀ r ∈ (DecodeParquet.run_split d w m rs2).rows,
        r.split = m ∧
        (∃ prow ∈ rs2, r.text = prow.text ∧ r.speaker_id = prow.speaker_id) ∧
        ∃ b arr sr,
          DecodeParquet.decode_audio_bytes d b DecodeParquet.TARGET_SR = .ok (arr, sr) ∧
          r.duration_sec = DecodeParquet.round4 ((arr.length : ℚ) / (sr : ℚ)) := by
    intro m rs2
    unfold DecodeParquet.run_split
    refine DecodeParquet.run_splitFrom_preserves d w m
        (fun acc => ∀ r ∈ acc.rows,
          r.split = m ∧
          (∃ prow ∈ rs2, r.text = prow.text ∧ r.speaker_id = prow.speaker_id) ∧
          ∃ b arr sr,
            DecodeParquet.decode_audio_bytes d b DecodeParquet.TARGET_SR = .ok (arr, sr) ∧
            r.duration_sec = DecodeParquet.round4 ((arr.length : ℚ) / (sr : ℚ)))
        (fun row => row ∈ rs2) ?_ rs2 (fun _ h => h) 0 _ ?_
    · intro j row acc hrow hP
      rcases DecodeParquet.processRow_cases d w m j row acc with
        h | ⟨b, e, _, _, _, h⟩ | ⟨b, arr, sr, _, _, hok, h⟩
      · rw [h]
        exact hP
      · rw [h]
        exact hP
      · rw [h]
        intro r hr
        rcases List.mem_append.mp hr with hr | hr
        · exact hP r hr
        · rcases List.mem_singleton.mp hr with rfl
          exact ⟨rfl, ⟨row, hrow, rfl, rfl⟩, b, arr, sr, hok, rfl⟩
    · intro r hr
      simp at hr
  refine ⟨main n rs, ?_⟩
  intro r hr
  unfold DecodeParquet.mainRows at hr
  rcases List.mem_append.mp hr with hr | hr
  · rcases List.mem_append.mp hr with hr | hr
    · rcases hq : tf.isEmpty with _ | _
      · rw [hq] at hr
        simp only [if_neg Bool.false_ne_true] at hr
        exact Or.inl (main "train" tf.flatten r hr).1
      · rw [hq] at hr
        simp at hr
    · rcases hq : vf.isEmpty with _ | _
      · rw [hq] at hr
        simp only [if_neg Bool.false_ne_true] at hr
        exact Or.inr (Or.inl (main "validation" vf.flatten r hr).1)
      · rw [hq] at hr
        simp at hr
  · rcases hq : ef.isEmpty with _ | _
    · rw [hq] at hr
      simp only [if_neg Bool.false_ne_true] at hr
      exact Or.inr (Or.inr (main "test" ef.flatten r hr).1)
    · rw [hq] at hr
      simp at hr

/-- Witness for C5 (amended): on the concrete one-sample row the recorded
duration is the rounded quotient. -/
theorem c5_metadata_fields_witness :
    ∃ b arr sr,
      DecodeParquet.decode_audio_bytes denvGood b DecodeParquet.TARGET_SR = .ok (arr, sr) ∧
      (1 : ℚ) / 10000 = DecodeParquet.round4 ((arr.length : ℚ) / (sr : ℚ)) := by
  have h := (c5_metadata_fields denvGood "wav" [] [] [] "train" [rowGood]).1
    { split := "train", path := "wav/train_000000.wav", text := "muraho",
      speaker_id := 7, duration_sec := 1 / 10000 }
    (by rw [run_split_denvGood_rows]; exact List.mem_singleton.mpr rfl)
  exact h.2.2

/-- C3 counterexample: a row whose audio cell is null is skipped (no WAV,
no metadata row) but nothing is logged to stderr, contradicting the
claim that every malformed row produces a logged message. -/
theorem c3_counterexample :
    (DecodeParquet.run_split denvErr "wav" "train" [rowNull]).rows = [] ∧
    (DecodeParquet.run_split denvErr "wav" "train" [rowNull]).files = [] ∧
    (DecodeParquet.run_split denvErr "wav" "train" [rowNull]).stderrLog = [] :=
  ⟨rfl, rfl, rfl⟩

/-- C3 (amended): every malformed row is skipped — it contributes no WAV
write and no metadata row, and the loop continues with the next row — but
the "Skip row i" stderr message is produced only for rows whose audio
bytes fail to decode; null audio cells and missing or empty byte fields
are skipped silently. -/
theorem c3_malformed_row_skipped (d : DecodeParquet.DecodeEnv) (w n : String)
    (i : ℕ) (row : DecodeParquet.ParquetRow) (acc : DecodeParquet.SplitResult)
    (rest : List DecodeParquet.ParquetRow)
    (hm : DecodeParquet.Malformed d row) :
    (DecodeParquet.processRow d w n i row acc).rows = acc.rows ∧
    (DecodeParquet.processRow d w n i row acc).files = acc.files ∧
    ((row.audio = none ∨ row.audio = some none ∨ row.audio = some (some [])) →
       (DecodeParquet.processRow d w n i row acc).stderrLog = acc.stderrLog) ∧
    (∀ b e, row.audio = some (some b) → b ≠ [] →
       DecodeParquet.decode_audio_bytes d b DecodeParquet.TARGET_SR = .error e →
       (DecodeParquet.processRow d w n i row acc).stderrLog
         = acc.stderrLog ++ [DecodeParquet.skipMsg i e]) ∧
    DecodeParquet.run_splitFrom d w n i (row :: rest) acc
      = DecodeParquet.run_splitFrom d w n (i + 1) rest
          (DecodeParquet.processRow d w n i row acc) := by
  obtain ⟨h1, h2⟩ := DecodeParquet.processRow_malformed d w n i row acc hm
  refine ⟨h1, h2, ?_, ?_, rfl⟩
  · rcases row with ⟨au, tx, sp⟩
    intro h
    rcases h with h | h | h <;>
      simp only at h <;> subst h <;> rfl
  · rcases row with ⟨au, tx, sp⟩
    intro b e hau hb hd
    simp only at hau
    subst hau
    rcases b with _ | ⟨x, xs⟩
    · exact absurd rfl hb
    · simp only [DecodeParquet.processRow, List.isEmpty_cons, Bool.false_eq_true,
        if_false]
      rw [hd]

/-- Witness for C3 (amended): a concrete null-audio row is malformed and
leaves the accumulated rows unchanged. -/
theorem c3_malformed_row_skipped_witness :
    DecodeParquet.Malformed denvErr rowNull ∧
    (DecodeParquet.processRow denvErr "wav" "train" 0 rowNull
        { files := [], stderrLog := [], rows := [] }).rows = [] := by
  have hm : DecodeParquet.Malformed denvErr rowNull := Or.inl rfl
  exact ⟨hm, (c3_malformed_row_skipped denvErr "wav" "train" 0 rowNull
    { files := [], stderrLog := [], rows := [] } [] hm).1⟩

/-- C2: When the model pipeline yields no audio, synthesize (in both
engines) does not fail: it substitutes the fixed fallback of
int(sr * 2) zero samples at the cached model sampling rate — exactly two
seconds of silence — returns it encoded together with the latency value,
and (since the external filters map silence to silence) the returned
waveform is all zeros. -/
theorem c2_silent_fallback (dsp : DSP) (env : Inference.Env) (senv : Shiny.Env)
    (t0 t1 : ℚ) (s : Inference.EngineState) (t : Shiny.EngineState)
    (text : String) (sid : SpeakerArg)
    (hrp : ∀ u v b, ZeroSig b → ZeroSig (dsp.resamplePoly u v b))
    (hbp : ∀ r b, ZeroSig b → ZeroSig (dsp.bandpass r b))
    (hdc : ∀ r b, ZeroSig b → ZeroSig (dsp.removeDC r b))
    (hI : ((Inference.load_modelValue env s).model.run text).audio = none)
    (hS : (Shiny.modelOutput senv (Shiny.load_modelValue senv t) text).audio = none) :
    (Inference.synthesize dsp env t0 t1 s text sid).2.latency_ms = latencyOf t0 t1 ∧
    (Inference.synthesize dsp env t0 t1 s text sid).2.wav
      = Inference.to_wav_bytes dsp
          (List.replicate ((Inference.load_modelValue env s).samplingRate * 2) 0)
          (Inference.load_modelValue env s).samplingRate ∧
    ZeroSig (Inference.synthesize dsp env t0 t1 s text sid).2.wav.samples ∧
    (Shiny.synthesize dsp senv t0 t1 t text sid).2.latency_ms = latencyOf t0 t1 ∧
    (Shiny.synthesize dsp senv t0 t1 t text sid).2.wav
      = Shiny.to_wav_bytes dsp
          (List.replicate ((Shiny.load_modelValue senv t).samplingRate * 2) 0)
          (Shiny.load_modelValue senv t).samplingRate ∧
    ZeroSig (Shiny.synthesize dsp senv t0 t1 t text sid).2.wav.samples := by
  have eI : fallbackAudio ((Inference.load_modelValue env s).model.run text)
      (Inference.load_modelValue env s).samplingRate
      = List.replicate ((Inference.load_modelValue env s).samplingRate * 2) (0 : ℚ) := by
    unfold fallbackAudio
    rw [hI]
  have eS : fallbackAudio (Shiny.modelOutput senv (Shiny.load_modelValue senv t) text)
      (Shiny.load_modelValue senv t).samplingRate
      = List.replicate ((Shiny.load_modelValue senv t).samplingRate * 2) (0 : ℚ) := by
    unfold fallbackAudio
    rw [hS]
  have w2 : (Inference.synthesize dsp env t0 t1 s text sid).2.wav
      = Inference.to_wav_bytes dsp
          (List.replicate ((Inference.load_modelValue env s).samplingRate * 2) 0)
          (Inference.load_modelValue env s).samplingRate := by
    rw [inference_synthesize_snd, eI]
  have w3 : ZeroSig (Inference.synthesize dsp env t0 t1 s text sid).2.wav.samples := by
    rw [w2, inference_to_wav_bytes_samples]
    exact zeroSig_normalizePeak _
      (inference_preNorm_zero dsp _ _ hrp hbp (zeroSig_replicate _))
  have v2 : (Shiny.synthesize dsp senv t0 t1 t text sid).2.wav
      = Shiny.to_wav_bytes dsp
          (List.replicate ((Shiny.load_modelValue senv t).samplingRate * 2) 0)
          (Shiny.load_modelValue senv t).samplingRate := by
    rw [shiny_synthesize_snd, eS]
  have v3 : ZeroSig (Shiny.synthesize dsp senv t0 t1 t text sid).2.wav.samples := by
    rw [v2, shiny_to_wav_bytes_samples]
    exact zeroSig_normalizePeak _
      (shiny_preNorm_zero dsp _ _ hrp hdc (zeroSig_replicate _))
  exact ⟨rfl, w2, w3, rfl, v2, v3⟩

/-- Witness for C2: with concrete no-audio models, both engines return the
encoded two-second silence (32000 zero samples at the cached 16 kHz rate
before encoding) and an all-zero waveform. -/
theorem c2_silent_fallback_witness :
    ((Inference.load_modelValue envNoAudio { _model := none }).model.run "muraho").audio
      = none ∧
    (Inference.synthesize dspId envNoAudio 0 1 { _model := none } "muraho" .noneArg).2.wav
      = Inference.to_wav_bytes dspId (List.replicate 32000 0) 16000 ∧
    ZeroSig (Shiny.synthesize dspId senvNoAudio 0 1 { _model := none } "muraho"
      .noneArg).2.wav.samples := by
  have h := c2_silent_fallback dspId envNoAudio senvNoAudio 0 1 { _model := none }
    { _model := none } "muraho" .noneArg
    (fun _ _ _ hz => hz) (fun _ _ hz => hz) (fun _ _ hz => hz) rfl rfl
  exact ⟨rfl, h.2.1, h.2.2.2.2.2⟩

/-- C7: synthesize returns a pair (wav_bytes, latency_ms) with latency_ms
nonnegative (for monotone clock readings), every encoded sample in
[-1, 1], and — whenever the post-filter audio of the encoding chain has
peak magnitude above 1e-6 — a peak-normalized waveform whose maximum
absolute sample is exactly 0.95, in both engines. -/
theorem c7_normalized_output (dsp : DSP) (env : Inference.Env) (senv : Shiny.Env)
    (t0 t1 : ℚ) (s : Inference.EngineState) (t : Shiny.EngineState)
    (text : String) (sid : SpeakerArg) (hT : t0 ≤ t1) :
    0 ≤ (Inference.synthesize dsp env t0 t1 s text sid).2.latency_ms ∧
    0 ≤ (Shiny.synthesize dsp senv t0 t1 t text sid).2.latency_ms ∧
    (∀ x ∈ (Inference.synthesize dsp env t0 t1 s text sid).2.wav.samples,
       -1 ≤ x ∧ x ≤ 1) ∧
    (∀ x ∈ (Shiny.synthesize dsp senv t0 t1 t text sid).2.wav.samples,
       -1 ≤ x ∧ x ≤ 1) ∧
    (1 / 1000000 < peak (Inference.to_wav_bytes_preNorm dsp
        (fallbackAudio ((Inference.load_modelValue env s).model.run text)
          (Inference.load_modelValue env s).samplingRate)
        (Inference.load_modelValue env s).samplingRate).1 →
      peak (Inference.synthesize dsp env t0 t1 s text sid).2.wav.samples = 95 / 100) ∧
    (1 / 1000000 < peak (Shiny.to_wav_bytes_preNorm dsp
        (fallbackAudio (Shiny.modelOutput senv (Shiny.load_modelValue senv t) text)
          (Shiny.load_modelValue senv t).samplingRate)
        (Shiny.load_modelValue senv t).samplingRate).1 →
      peak (Shiny.synthesize dsp senv t0 t1 t text sid).2.wav.samples = 95 / 100) := by
  refine ⟨?_, ?_, ?_, ?_, ?_, ?_⟩
  · exact mul_nonneg (sub_nonneg.mpr hT) (by norm_num)
  · exact mul_nonneg (sub_nonneg.mpr hT) (by norm_num)
  · intro x hx
    rcases inference_preNorm_fst dsp
        (fallbackAudio ((Inference.load_modelValue env s).model.run text)
          (Inference.load_modelValue env s).samplingRate)
        (Inference.load_modelValue env s).samplingRate with ⟨b, hb⟩
    have hx2 : x ∈ normalizePeak (Inference.to_wav_bytes_preNorm dsp
        (fallbackAudio ((Inference.load_modelValue env s).model.run text)
          (Inference.load_modelValue env s).samplingRate)
        (Inference.load_modelValue env s).samplingRate).1 := hx
    rw [hb] at hx2
    exact abs_le.mp (normalizePeak_abs_le (clipSignal_abs_le b) x hx2)
  · intro x hx
    rcases shiny_preNorm_fst dsp
        (fallbackAudio (Shiny.modelOutput senv (Shiny.load_modelValue senv t) text)
          (Shiny.load_modelValue senv t).samplingRate)
        (Shiny.load_modelValue senv t).samplingRate with ⟨b, hb⟩
    have hx2 : x ∈ normalizePeak (Shiny.to_wav_bytes_preNorm dsp
        (fallbackAudio (Shiny.modelOutput senv (Shiny.load_modelValue senv t) text)
          (Shiny.load_modelValue senv t).samplingRate)
        (Shiny.load_modelValue senv t).samplingRate).1 := hx
    rw [hb] at hx2
    exact abs_le.mp (normalizePeak_abs_le (clipSignal_abs_le b) x hx2)
  · intro h
    exact peak_normalizePeak h
  · intro h
    exact peak_normalizePeak h

/-- Witness for C7: on a concrete model yielding the one-sample signal
[1], the post-filter peak is 1 > 1e-6 and both engines return waveforms
whose peak is exactly 0.95. -/
theorem c7_normalized_output_witness :
    (0 : ℚ) ≤ (Inference.synthesize dspId envOne 0 1 { _model := none } "muraho"
      .noneArg).2.latency_ms ∧
    peak (Inference.synthesize dspId envOne 0 1 { _model := none } "muraho"
      .noneArg).2.wav.samples = 95 / 100 ∧
    peak (Shiny.synthesize dspId senvOne 0 1 { _model := none } "muraho"
      .noneArg).2.wav.samples = 95 / 100 := by
  have h := c7_normalized_output dspId envOne senvOne 0 1 { _model := none }
    { _model := none } "muraho" .noneArg (by norm_num)
  have hpk1 : (1 : ℚ) / 1000000 < peak ([1] : Signal) := by
    rw [peak_cons, peak_nil]
    norm_num
  refine ⟨h.1, h.2.2.2.2.1 ?_, h.2.2.2.2.2 ?_⟩
  · exact hpk1
  · exact hpk1

/-- C1 counterexample: with a model whose config carries a 22050 Hz
sampling rate, the cached _model._sampling_rate is 22050 but the WAV
handed to sf.write is resampled to the fixed 16000 Hz target, so the
recorded rate differs from the model's configured rate. -/
theorem c1_sample_rate_counterexample :
    (Inference.load_modelValue env22k { _model := none }).samplingRate = 22050 ∧
    (Inference.synthesize dspId env22k 0 1 { _model := none } "muraho"
      .noneArg).2.wav.rate = 16000 ∧
    (Inference.synthesize dspId env22k 0 1 { _model := none } "muraho"
      .noneArg).2.wav.rate
      ≠ (Inference.load_modelValue env22k { _model := none }).samplingRate := by
  refine ⟨rfl, ?_, ?_⟩
  · exact inference_to_wav_bytes_rate dspId _ _
  · have h1 : (Inference.synthesize dspId env22k 0 1 { _model := none } "muraho"
        .noneArg).2.wav.rate = 16000 := inference_to_wav_bytes_rate dspId _ _
    rw [h1]
    decide

/-- C1 (amended): the sample rate recorded in the WAV returned by
synthesize is always the fixed 16000 Hz target of _to_wav_bytes (which
resamples when the incoming rate differs); it equals the model's cached
sampling rate exactly when that cached rate is 16000 — as it is for the
default MMS-TTS configuration — in both engines. -/
theorem c1_wav_rate_fixed_target (dsp : DSP) (env : Inference.Env)
    (senv : Shiny.Env) (t0 t1 : ℚ) (s : Inference.EngineState)
    (t : Shiny.EngineState) (text : String) (sid : SpeakerArg) :
    (Inference.synthesize dsp env t0 t1 s text sid).2.wav.rate = 16000 ∧
    (Shiny.synthesize dsp senv t0 t1 t text sid).2.wav.rate = 16000 ∧
    ((Inference.load_modelValue env s).samplingRate = 16000 →
      (Inference.synthesize dsp env t0 t1 s text sid).2.wav.rate
        = (Inference.load_modelValue env s).samplingRate) ∧
    ((Shiny.load_modelValue senv t).samplingRate = 16000 →
      (Shiny.synthesize dsp senv t0 t1 t text sid).2.wav.rate
        = (Shiny.load_modelValue senv t).samplingRate) := by
  refine ⟨inference_to_wav_bytes_rate dsp _ _, shiny_to_wav_bytes_rate dsp _ _, ?_, ?_⟩
  · intro h
    rw [h]
    exact inference_to_wav_bytes_rate dsp _ _
  · intro h
    rw [h]
    exact shiny_to_wav_bytes_rate dsp _ _

/-- Witness for C1 (amended): for a concrete 16 kHz model the recorded
WAV rate equals the cached model rate. -/
theorem c1_wav_rate_fixed_target_witness :
    (Inference.load_modelValue envOne { _model := none }).samplingRate = 16000 ∧
    (Inference.synthesize dspId envOne 0 1 { _model := none } "muraho"
      .noneArg).2.wav.rate
      = (Inference.load_modelValue envOne { _model := none }).samplingRate ∧
    (Shiny.synthesize dspId senvOne 0 1 { _model := none } "muraho"
      .noneArg).2.wav.rate
      = (Shiny.load_modelValue senvOne { _model := none }).samplingRate := by
  have h := c1_wav_rate_fixed_target dspId envOne senvOne 0 1 { _model := none }
    { _model := none } "muraho" .noneArg
  exact ⟨rfl, h.2.2.1 rfl, h.2.2.2 rfl⟩

end TekanaAI
